import Mathlib

/-!
Verification development for the LTWS (littletree wallpaper source, v3)
descriptor validation and resolution engine.

The Lean definitions below are a shallow embedding of the Python sources
`ltws/models.py`, `ltws/validator.py`, `ltws/parser.py`, `ltws/packager.py`
and `ltws/variables.py`.  Raw TOML documents are modelled by the inductive
`TomlVal` / `Doc` types; Python dictionaries become association lists (whose
order models Python's insertion-ordered dicts); fallible construction is
modelled with `Except String`.

Modelling conventions, used throughout:
* Python truthiness of the values that actually occur is modelled exactly
  (`None`, `""`, `0`, `False`, `[]` and empty dicts are falsy).
* `re.match(p, s)` with a `$`-anchored pattern also accepts a single
  trailing newline; this is modelled by stripping at most one trailing
  `'\n'` before an exact match (`stripOneNL`).
* `\w` and `\d` are modelled as their ASCII subsets; the sources only ever
  feed ASCII key material through these patterns.
* The file system is a finite list of regular files; empty directories and
  directories whose names look like files are not representable, and every
  `.toml` file in the model carries its already-parsed document (the code's
  TOML reader, `rtoml`, is an external collaborator).
-/

namespace LTWS

/-! ### String helpers

Re-implemented structurally over `List Char` so that every definition in
this development evaluates by kernel reduction. -/

/-- `pre` is a prefix of `s` (`str.startswith`). -/
def strPref (pre s : String) : Bool := pre.data.isPrefixOf s.data

/-- Split on a single-character separator (`str.split(sep)` semantics:
splitting the empty string yields `[""]`). -/
def splitOnCharAux (sep : Char) : List Char → List Char → List (List Char)
  | [], acc => [acc.reverse]
  | c :: cs, acc =>
      if c == sep then acc.reverse :: splitOnCharAux sep cs []
      else splitOnCharAux sep cs (c :: acc)

/-- Split a string on a single-character separator. -/
def splitOnChar (sep : Char) (s : String) : List String :=
  (splitOnCharAux sep s.data []).map String.mk

/-- `str.strip()` (modelled on ASCII whitespace). -/
def trimStr (s : String) : String :=
  String.mk (((s.data.dropWhile Char.isWhitespace).reverse.dropWhile
    Char.isWhitespace).reverse)

/-- ASCII lower-casing (`str.lower`; the code only lower-cases ASCII
format tags). -/
def asciiLower (s : String) : String :=
  String.mk (s.data.map (fun c =>
    if 'A' ≤ c && c ≤ 'Z' then Char.ofNat (c.toNat + 32) else c))

/-- Digits to a natural number. -/
def natOfDigits : List Char → Nat → Nat
  | [], acc => acc
  | c :: cs, acc => natOfDigits cs (acc * 10 + (c.toNat - 48))

/-- Python `int(str)`: optional surrounding whitespace, optional sign,
decimal digits (digit-group underscores are not modelled). -/
def pyToInt (s : String) : Option Int :=
  let core := ((s.data.dropWhile Char.isWhitespace).reverse.dropWhile
    Char.isWhitespace).reverse
  let signed : Bool × List Char := match core with
    | '-' :: ds => (true, ds)
    | '+' :: ds => (false, ds)
    | ds => (false, ds)
  if signed.2.isEmpty || !signed.2.all Char.isDigit then none
  else
    let n : Int := Int.ofNat (natOfDigits signed.2 0)
    some (if signed.1 then -n else n)

/-- Deduplication keeping first occurrences. -/
def dedupFirstAux (seen : List String) : List String → List String
  | [] => []
  | x :: xs =>
      if seen.contains x then dedupFirstAux seen xs
      else x :: dedupFirstAux (x :: seen) xs

/-- Raw TOML / Python data values, as produced by `rtoml.load`. -/
inductive TomlVal where
  | str (s : String)
  | num (n : Int)
  | boolean (b : Bool)
  | arr (xs : List TomlVal)
  | table (kvs : List (String × TomlVal))

/-- A parsed TOML document: a Python dict with insertion order. -/
abbrev Doc := List (String × TomlVal)

/-- `d.get(k)` / `k in d` on a Python dict (first binding wins). -/
def lookupDoc (d : Doc) (k : String) : Option TomlVal :=
  (d.find? (fun p => p.1 == k)).map (fun p => p.2)

/-- Python truthiness of a raw value. -/
def tomlTruthy : TomlVal → Bool
  | .str s => !s.isEmpty
  | .num n => n != 0
  | .boolean b => b
  | .arr xs => !xs.isEmpty
  | .table kvs => !kvs.isEmpty

/-- Truthiness of an `Optional[str]` field (`None` and `""` are falsy). -/
def strTruthy : Option String → Bool
  | none => false
  | some s => !s.isEmpty

/-- Truthiness of an `Optional[Dict[str, str]]` field. -/
def dictTruthy : Option (List (String × String)) → Bool
  | none => false
  | some l => !l.isEmpty

/-- Key membership in an optional string-to-string dict. -/
def dictHasKey (d : Option (List (String × String))) (k : String) : Bool :=
  match d with
  | none => false
  | some l => l.any (fun p => p.1 == k)

/-- Model of `$` in `re.match`: at most one trailing newline is tolerated. -/
def stripOneNL (s : String) : String :=
  match s.data.getLast? with
  | some c => if c == '\n' then s.dropRight 1 else s
  | none => s

/-- Character class `[a-z]`. -/
def isLowerAlpha (c : Char) : Bool := 'a' ≤ c && c ≤ 'z'

/-- Character class `[a-z0-9_]`. -/
def isIdentChar (c : Char) : Bool := isLowerAlpha c || c.isDigit || c == '_'

/-- `re.match(r"^[a-z][a-z0-9_]*$", s)`: the shared key/id grammar. -/
def identPatternOk (s : String) : Bool :=
  match (stripOneNL s).data with
  | [] => false
  | c :: cs => isLowerAlpha c && cs.all isIdentChar

/-- `re.match(r"^https?://", s)` (unanchored tail: prefix check only). -/
def httpUrlOk (s : String) : Bool :=
  strPref "http://" s || strPref "https://" s

/-- `needle` occurs as a contiguous substring of `hay` (`in` on Python str). -/
def charsHaveSub (hay needle : List Char) : Bool :=
  match hay with
  | [] => needle.isEmpty
  | _ :: t => needle.isPrefixOf hay || charsHaveSub t needle

/-- `needle in hay` on Python strings. -/
def strHasSub (hay needle : String) : Bool :=
  charsHaveSub hay.data needle.data

/-- `re.match(r"^(?=.{3,255}$)(?=.*\.)[a-z0-9_]+(\.[a-z0-9_]+)+$", s)`:
the validator's reverse-domain identifier grammar. -/
def identifierOk (s : String) : Bool :=
  let t := stripOneNL s
  let parts := splitOnChar '.' t
  3 ≤ t.length && t.length ≤ 255 &&
    parts.length ≥ 2 &&
    parts.all (fun p => !p.isEmpty && p.data.all isIdentChar)

/-- `re.match(r"^\d+\.\d+\.\d+$", s)`: the version grammar. -/
def versionOk (s : String) : Bool :=
  match splitOnChar '.' (stripOneNL s) with
  | [a, b, c] =>
      !a.isEmpty && a.data.all Char.isDigit &&
      !b.isEmpty && b.data.all Char.isDigit &&
      !c.isEmpty && c.data.all Char.isDigit
  | _ => false

/-! ## Data model (`ltws/models.py`) -/

/-- `ParameterType` enum. -/
inductive ParameterType where
  | choice | text | boolean
deriving DecidableEq

/-- `Parameter` record. -/
structure Parameter where
  key : String
  type : ParameterType
  label : String
  default : String
  choices : Option (List String)
  placeholder : Option String
  hidden : Bool
  min_length : Option Int
  max_length : Option Int
  pattern : Option String
  description : Option String

/-- Truthiness of `Optional[List[str]]` (`Parameter.choices`). -/
def listTruthy : Option (List String) → Bool
  | none => false
  | some l => !l.isEmpty

/-- `Parameter` construction: pydantic field constraints plus the
`validate_key` and `validate_parameter` validators. -/
def mkParameter (key : String) (type : ParameterType) (label : String)
    (default : String) (choices : Option (List String))
    (placeholder : Option String) (hidden : Bool)
    (min_length max_length : Option Int) (pattern description : Option String) :
    Except String Parameter :=
  if !(1 ≤ key.length && key.length ≤ 50) then
    .error "key 长度必须在1-50之间"
  else if !identPatternOk key then
    .error "参数键名只能包含小写字母、数字和下划线，且必须以字母开头"
  else if !(1 ≤ label.length && label.length ≤ 50) then
    .error "label 长度必须在1-50之间"
  else if type = ParameterType.choice && !listTruthy choices then
    .error "choice类型必须提供choices列表"
  else
    .ok ⟨key, type, label, default, choices, placeholder, hidden,
         min_length, max_length, pattern, description⟩

/-- `Category` record. -/
structure Category where
  id : String
  name : String
  category : String
  subcategory : Option String
  subsubcategory : Option String
  icon : Option String
  description : Option String

/-- `Category` construction: pydantic length bounds plus `validate_id`. -/
def mkCategory (id name category : String)
    (subcategory subsubcategory icon description : Option String) :
    Except String Category :=
  if !(1 ≤ id.length && id.length ≤ 32) then
    .error "id 长度必须在1-32之间"
  else if !identPatternOk id then
    .error "分类ID只能包含小写字母、数字和下划线，且必须以字母开头"
  else if !(1 ≤ name.length && name.length ≤ 50) then
    .error "name 长度必须在1-50之间"
  else if !(1 ≤ category.length && category.length ≤ 50) then
    .error "category 长度必须在1-50之间"
  else
    .ok ⟨id, name, category, subcategory, subsubcategory, icon, description⟩

/-- `RequestConfig` record. -/
structure RequestConfig where
  url : Option String
  method : String
  timeout_seconds : Option Int
  interval_seconds : Option Int
  max_concurrent : Option Int
  skip_ssl_verify : Option Bool
  user_agent : Option String
  headers : Option (List (String × String))
  body : Option TomlVal

/-- `re.match`-style check of the pydantic pattern `^(GET|POST)$`. -/
def methodPatternOk (m : String) : Bool :=
  stripOneNL m == "GET" || stripOneNL m == "POST"

/-- `RequestConfig` construction: pydantic `ge`/`le` bounds, the `method`
pattern and the `validate_url` field validator. -/
def mkRequestConfig (url : Option String) (method : String)
    (timeout_seconds interval_seconds max_concurrent : Option Int)
    (skip_ssl_verify : Option Bool) (user_agent : Option String)
    (headers : Option (List (String × String))) (body : Option TomlVal) :
    Except String RequestConfig :=
  if !(match url with
       | none => true
       | some u => u.isEmpty || httpUrlOk u) then
    .error "URL必须以http://或https://开头"
  else if !methodPatternOk method then
    .error "method 必须匹配 GET|POST"
  else if !(match timeout_seconds with
            | none => true
            | some t => 1 ≤ t && t ≤ 300) then
    .error "timeout_seconds 必须在1-300之间"
  else if !(match interval_seconds with
            | none => true
            | some t => -1 ≤ t) then
    .error "interval_seconds 必须大于等于-1"
  else if !(match max_concurrent with
            | none => true
            | some t => 1 ≤ t && t ≤ 10) then
    .error "max_concurrent 必须在1-10之间"
  else
    .ok ⟨url, method, timeout_seconds, interval_seconds, max_concurrent,
         skip_ssl_verify, user_agent, headers, body⟩

/-- `FieldMapping` record. -/
structure FieldMapping where
  image : Option String
  title : Option String
  description : Option String
  thumbnail : Option String
  width : Option String
  height : Option String
  author : Option String
  source : Option String
  tags : Option String
  date : Option String
  items : Option String
  item_mapping : Option (List (String × String))

/-- The all-empty `FieldMapping()` used as the static-response default. -/
def emptyFieldMapping : FieldMapping :=
  ⟨none, none, none, none, none, none, none, none, none, none, none, none⟩

/-- `FieldMapping` construction: the `validate_mapping` model validator.
Note that the all-fields-falsy early return comes first, and that the
mutual-exclusion check only inspects `image`, `title` and `description`. -/
def mkFieldMapping (image title description thumbnail width height author
    source tags date items : Option String)
    (item_mapping : Option (List (String × String))) :
    Except String FieldMapping :=
  let self : FieldMapping :=
    ⟨image, title, description, thumbnail, width, height, author, source,
     tags, date, items, item_mapping⟩
  let anyValue := strTruthy image || strTruthy title || strTruthy description ||
    strTruthy thumbnail || strTruthy width || strTruthy height ||
    strTruthy author || strTruthy source || strTruthy tags ||
    strTruthy date || strTruthy items
  if !anyValue && !dictTruthy item_mapping then .ok self
  else
    let has_single := strTruthy image || strTruthy title || strTruthy description
    let has_multi := items.isSome
    if has_single && has_multi then
      .error "单图模式和多图模式字段不能同时存在"
    else if has_multi && !dictTruthy item_mapping then
      .error "多图模式必须提供item_mapping"
    else if dictTruthy item_mapping && !dictHasKey item_mapping "image" then
      .error "item_mapping必须包含image字段"
    else .ok self

/-- `CacheConfig` record. -/
structure CacheConfig where
  enabled : Bool
  ttl_seconds : Int
  key_template : Option String
  exclude_params : Option (List String)

/-- `CacheConfig` construction (`ttl_seconds ≥ 1`). -/
def mkCacheConfig (enabled : Bool) (ttl_seconds : Int)
    (key_template : Option String) (exclude_params : Option (List String)) :
    Except String CacheConfig :=
  if ttl_seconds < 1 then .error "ttl_seconds 必须大于等于1"
  else .ok ⟨enabled, ttl_seconds, key_template, exclude_params⟩

/-- `WallpaperAPI` record (`extra` holds tolerated unrecognized fields). -/
structure WallpaperAPI where
  name : String
  description : Option String
  logo : Option String
  categories : List String
  category_icons : Option (List (String × String))
  parameters : List Parameter
  request : Option RequestConfig
  response : Doc
  mapping : Option FieldMapping
  validation : Option Doc
  error_handling : Option Doc
  cache : Option CacheConfig
  inherit : Option String
  extra : Doc

/-- `response.get("format")`, falling back to the legacy `type` key whenever
the `format` value is absent or falsy. -/
def resolvedResponseFormat (response : Doc) : Option TomlVal :=
  match lookupDoc response "format" with
  | some v => if tomlTruthy v then some v else lookupDoc response "type"
  | none => lookupDoc response "type"

/-- Whether the resolved response format (lower-cased when a string) is
`static_list` or `static_dict`. -/
def isStaticResponseFormat (response : Doc) : Bool :=
  match resolvedResponseFormat response with
  | some (.str s) =>
      asciiLower s == "static_list" || asciiLower s == "static_dict"
  | _ => false

/-- `WallpaperAPI` construction: pydantic length bounds on `name`, the
non-empty bound on `categories`, then the `validate_request_presence`
model validator (static responses may omit `request`, and a missing
`mapping` is replaced by the all-empty `FieldMapping`). -/
def mkWallpaperAPI (name : String) (description logo : Option String)
    (categories : List String) (category_icons : Option (List (String × String)))
    (parameters : List Parameter) (request : Option RequestConfig)
    (response : Doc) (mapping : Option FieldMapping)
    (validation error_handling : Option Doc) (cache : Option CacheConfig)
    (inherit : Option String) (extra : Doc) : Except String WallpaperAPI :=
  if !(1 ≤ name.length && name.length ≤ 100) then
    .error "name 长度必须在1-100之间"
  else if categories.isEmpty then
    .error "categories 至少需要一个元素"
  else
    let is_static := isStaticResponseFormat response
    if request.isNone && !is_static then
      .error "request 配置缺失"
    else
      let mapping' := if mapping.isNone && is_static then
        some emptyFieldMapping else mapping
      if mapping'.isNone && !is_static then
        .error "mapping 配置缺失"
      else
        .ok ⟨name, description, logo, categories, category_icons, parameters,
             request, response, mapping', validation, error_handling, cache,
             inherit, extra⟩

/-- `WallpaperSource` record (`loaded_at` provenance is not modelled). -/
structure WallpaperSource where
  metadata : Doc
  config : Doc
  categories : List Category
  categories_template : Option Doc
  categories_level_icons : Option (List (String × String))
  category_groups : Option (List Doc)
  apis : List WallpaperAPI
  source_path : Option String

/-- `WallpaperSource.validate_categories` — also the body of the parser's
`_validate_category_references`, which repeats it verbatim. -/
def categoryRefErrors (apis : List WallpaperAPI) (categories : List Category) :
    List String :=
  let category_ids := categories.map (fun c => c.id)
  apis.foldl (fun acc api =>
    acc ++ api.categories.foldl (fun acc2 cid =>
      if category_ids.contains cid then acc2
      else acc2 ++ ["API '" ++ api.name ++ "' 引用了不存在的分类: " ++ cid]) [])
    []

/-! ## Validator (`ltws/validator.py`)

Every check is embedded as a pure function returning the error and warning
messages it appends, in append order; `validateSourceDiagnostics` strings
the phases together in the order `validate_source` runs them. -/

/-- `_validate_icon`: data-URL icons need `;base64,`, all other icons must
be `http(s)://` URLs. -/
def validateIcon (icon : String) (context : String) : List String :=
  if strPref "data:image/" icon then
    if strHasSub icon ";base64," then []
    else [context ++ ": Base64图标格式错误"]
  else if httpUrlOk icon then []
  else [context ++ ": 图标必须是Base64编码或URL"]

/-- `metadata.get(k, "")` for the string-valued metadata keys.  Non-string
values for these keys would raise `TypeError` inside `re.match` in Python
and are outside the modelled domain. -/
def mdStr (m : Doc) (k : String) : String :=
  match lookupDoc m k with
  | some (.str s) => s
  | _ => ""

/-- `_validate_metadata`. -/
def validateMetadata (m : Doc) : List String × List String :=
  let missing := (["scheme", "identifier", "name", "version", "categories",
    "apis"].filter (fun f => (lookupDoc m f).isNone)).map
      (fun f => "缺少必需字段: " ++ f)
  let schemeErr :=
    if (match lookupDoc m "scheme" with
        | some (.str s) => s == "littletree_wallpaper_source_v3"
        | _ => false) then []
    else ["不支持的协议版本"]
  let ident := mdStr m "identifier"
  let identErr := if identifierOk ident then []
    else ["标识符格式错误: " ++ ident ++
          "（仅小写字母/数字/点/下划线，且至少包含一个点）"]
  let ver := mdStr m "version"
  let verErr := if versionOk ver then [] else ["版本格式错误: " ++ ver]
  let nm := mdStr m "name"
  let nameWarn := if nm.length < 2 || nm.length > 32 then
    ["名称长度建议在2-32字符之间: " ++ toString nm.length ++ "字符"] else []
  let logoErr := match lookupDoc m "logo" with
    | some (.str s) => if !s.isEmpty then validateIcon s "metadata.logo" else []
    | _ => []
  (missing ++ schemeErr ++ identErr ++ verErr ++ logoErr, nameWarn)

/-- `_validate_categories`: duplicate-id detection plus per-entry icon
checks, indexed like the Python `enumerate` loop. -/
def validateCategoriesList (categories : List Category) : List String :=
  (categories.foldl (fun acc c =>
    let (i, seen, errs) := acc
    let dupErr := if seen.contains c.id then ["分类ID重复: " ++ c.id] else []
    let iconErr := match c.icon with
      | some ic => if !ic.isEmpty then
          validateIcon ic ("categories[" ++ toString i ++ "].icon") else []
      | none => []
    (i + 1, c.id :: seen, errs ++ dupErr ++ iconErr))
    ((0 : Nat), ([] : List String), ([] : List String))).2.2

/-- `_validate_parameters`. -/
def validateParameters (parameters : List Parameter) (api_name : String) :
    List String × List String :=
  (parameters.foldl (fun acc p =>
    let (seen, errs, warns) := acc
    let dupErr := if seen.contains p.key then
      ["API '" ++ api_name ++ "' 参数键重复: " ++ p.key] else []
    let fmtErr := if !identPatternOk p.key then
      ["API '" ++ api_name ++ "' 参数键格式错误: " ++ p.key] else []
    let choiceErr := if p.type = ParameterType.choice && !listTruthy p.choices
      then ["API '" ++ api_name ++ "' choice类型参数必须提供choices: " ++ p.key]
      else []
    let hiddenWarn := if p.hidden && p.default.isEmpty then
      ["API '" ++ api_name ++ "' 隐藏参数建议设置默认值: " ++ p.key] else []
    (p.key :: seen, errs ++ dupErr ++ fmtErr ++ choiceErr, warns ++ hiddenWarn))
    (([] : List String), ([] : List String), ([] : List String))).2

/-- `_validate_request`. -/
def validateRequest (request : RequestConfig) (api_name : String) :
    List String × List String :=
  let urlErrs :=
    if !strTruthy request.url then ["API '" ++ api_name ++ "' 缺少URL"]
    else if !httpUrlOk (request.url.getD "") then
      ["API '" ++ api_name ++ "' URL必须以http://或https://开头"]
    else []
  let methodErrs := if request.method == "GET" || request.method == "POST"
    then [] else ["API '" ++ api_name ++ "' 请求方法必须是GET或POST"]
  let timeoutWarns := match request.timeout_seconds with
    | none => []
    | some t => if t != 0 && (t < 1 || t > 300) then
        ["API '" ++ api_name ++ "' 超时时间建议在1-300秒之间"] else []
  (urlErrs ++ methodErrs, timeoutWarns)

/-- `_validate_mapping`: the validator's belt-and-suspenders mapping pass.
Unlike the model's construction-time check, `has_single` here covers the
six fields `image`..`height`. -/
def validateMapping (mapping : FieldMapping) (api_name : String)
    (is_static : Bool) : List String :=
  let has_single := strTruthy mapping.image || strTruthy mapping.title ||
    strTruthy mapping.description || strTruthy mapping.thumbnail ||
    strTruthy mapping.width || strTruthy mapping.height
  let has_multi := mapping.items.isSome
  if is_static && !has_single && !has_multi && !dictTruthy mapping.item_mapping
  then []
  else
    (if !has_single && !has_multi then
      ["API '" ++ api_name ++ "' 字段映射配置不完整"] else []) ++
    (if has_single && has_multi then
      ["API '" ++ api_name ++ "' 不能同时配置单图和多图字段映射"] else []) ++
    (if has_multi && !dictTruthy mapping.item_mapping then
      ["API '" ++ api_name ++ "' 多图模式必须提供item_mapping"] else []) ++
    (if dictTruthy mapping.item_mapping &&
        !dictHasKey mapping.item_mapping "image" then
      ["API '" ++ api_name ++ "' item_mapping必须包含image字段"] else [])

/-- `_validate_api`. -/
def validateApi (api : WallpaperAPI) (all_categories : List Category) :
    List String × List String :=
  let nameErr := if api.name.isEmpty || api.name.length > 100 then
    ["API名称无效: " ++ api.name] else []
  let catErr := if api.categories.isEmpty then
    ["API '" ++ api.name ++ "' 没有绑定任何分类"] else []
  let all_category_ids := all_categories.map (fun c => c.id)
  let iconErrs := match api.category_icons with
    | some icons =>
      if icons.isEmpty then [] else
      icons.foldl (fun acc p =>
        let (cat_id, icon) := p
        acc ++
        (if all_category_ids.contains cat_id then [] else
          ["API '" ++ api.name ++ "' 分类图标引用了不存在的分类: " ++ cat_id]) ++
        validateIcon icon
          ("API '" ++ api.name ++ "'.category_icons['" ++ cat_id ++ "']")) []
    | none => []
  let logoErrs := match api.logo with
    | some l => if !l.isEmpty then
        validateIcon l ("API '" ++ api.name ++ "'.logo") else []
    | none => []
  let (paramErrs, paramWarns) := validateParameters api.parameters api.name
  let is_static := isStaticResponseFormat api.response
  let (reqErrs, reqWarns) := match api.request with
    | some r => validateRequest r api.name
    | none => (if is_static then [] else
        ["API '" ++ api.name ++ "' 缺少请求配置"], [])
  let mapErrs := match api.mapping with
    | some mp => validateMapping mp api.name is_static
    | none => if is_static then [] else
        ["API '" ++ api.name ++ "' 字段映射配置缺失"]
  (nameErr ++ catErr ++ iconErrs ++ logoErrs ++ paramErrs ++ reqErrs ++
    mapErrs, paramWarns ++ reqWarns)

/-- A crude model of Python `str()` on raw values, used only for the
optional `categories_template.icon` check. -/
def pyStrOf : TomlVal → String
  | .str s => s
  | .num n => toString n
  | .boolean b => if b then "True" else "False"
  | .arr _ => "[...]"
  | .table _ => "..."

/-- The whole of `validate_source` after the two `clear()` calls: the
diagnostics are a pure function of the source object. -/
def validateSourceDiagnostics (source : WallpaperSource) :
    List String × List String :=
  let (mdErrs, mdWarns) := validateMetadata source.metadata
  let tmplErrs := match source.categories_template with
    | some d => (match lookupDoc d "icon" with
        | some v => if tomlTruthy v then
            validateIcon (pyStrOf v) "categories.template.icon" else []
        | none => [])
    | none => []
  let lvlErrs := match source.categories_level_icons with
    | some icons => icons.foldl (fun acc p =>
        acc ++ (if !p.2.isEmpty then
          validateIcon p.2 ("categories.level_icons['" ++ p.1 ++ "']")
          else [])) []
    | none => []
  let catErrs := validateCategoriesList source.categories
  let apiDiags := source.apis.foldl (fun acc api =>
    let (errs, warns) := validateApi api source.categories
    (acc.1 ++ errs, acc.2 ++ warns)) (([] : List String), ([] : List String))
  let refErrs := categoryRefErrors source.apis source.categories
  (mdErrs ++ tmplErrs ++ lvlErrs ++ catErrs ++ apiDiags.1 ++ refErrs,
   mdWarns ++ apiDiags.2)

/-- The validator instance's mutable error/warning lists. -/
structure ValidatorState where
  errors : List String
  warnings : List String

/-- `LTWSValidator.validate_source`: clears both per-instance lists, runs
all checks, and returns pass iff no error accumulated. -/
def validateSourceRun (_v : ValidatorState) (source : WallpaperSource) :
    ValidatorState × Bool :=
  let d := validateSourceDiagnostics source
  (⟨d.1, d.2⟩, d.1.isEmpty)

/-! ## Parser (`ltws/parser.py`)

The parser is modelled in its default strict mode.  A source directory is a
finite set of regular files, each already parsed to a `Doc` (TOML syntax
errors and the `rtoml` import are not modelled); directories exist exactly
when some file lies under them. -/

/-- A source directory: relative forward-slash paths mapped to parsed TOML
content. -/
structure SrcFS where
  files : List (String × Doc)

/-- The regular-file paths of the directory. -/
def SrcFS.paths (fs : SrcFS) : List String := fs.files.map (fun p => p.1)

/-- `path.is_file()`. -/
def SrcFS.isFilePath (fs : SrcFS) (p : String) : Bool := fs.paths.contains p

/-- `path.is_dir()`: some file lies strictly below `p`. -/
def SrcFS.isDirPath (fs : SrcFS) (p : String) : Bool :=
  fs.paths.any (fun f => strPref (p ++ "/") f)

/-- `path.exists()`. -/
def SrcFS.existsPath (fs : SrcFS) (p : String) : Bool :=
  fs.isFilePath p || fs.isDirPath p

/-- Content of a file (`rtoml.load` of an existing file). -/
def SrcFS.read (fs : SrcFS) (p : String) : Option Doc :=
  (fs.files.find? (fun q => q.1 == p)).map (fun q => q.2)

/-- The containing directory of a relative path (`Path(p).parent`, with
`""` for a bare file name). -/
def dirname (p : String) : String :=
  match (splitOnChar '/' p).dropLast with
  | [] => ""
  | parts => String.intercalate "/" parts

/-- `dir / rel` for relative paths (`..` segments are not modelled). -/
def joinPath (dir rel : String) : String :=
  if dir.isEmpty then rel else dir ++ "/" ++ rel

/-- One path component of `fnmatch`-style globbing: `*` and `?` wildcards,
fuelled for structural recursion (character classes and `**` do not occur
in this code base). -/
def globCompMatch : Nat → List Char → List Char → Bool
  | 0, _, _ => false
  | _ + 1, [], s => s.isEmpty
  | fuel + 1, '*' :: ps, s =>
      globCompMatch fuel ps s ||
      (match s with
       | [] => false
       | _ :: s' => globCompMatch fuel ('*' :: ps) s')
  | fuel + 1, '?' :: ps, s =>
      (match s with
       | [] => false
       | _ :: s' => globCompMatch fuel ps s')
  | fuel + 1, p :: ps, s =>
      (match s with
       | [] => false
       | c :: s' => p == c && globCompMatch fuel ps s')

/-- Component-wise glob match of a relative pattern against a relative
path (`*` never crosses `/`). -/
def globPathMatch (pattern path : String) : Bool :=
  let pc := splitOnChar '/' pattern
  let sc := splitOnChar '/' path
  pc.length == sc.length &&
    (pc.zip sc).all (fun pr =>
      globCompMatch (pr.1.length + pr.2.length + 1) pr.1.data pr.2.data)

/-- `base_dir.glob(pattern)` restricted to the modelled regular files:
the files under `base` whose path relative to `base` matches `pattern`
(`base = ""` is the source root itself). -/
def SrcFS.glob (fs : SrcFS) (base pattern : String) : List String :=
  fs.paths.filter (fun f =>
    if base.isEmpty then globPathMatch pattern f
    else strPref (base ++ "/") f &&
      globPathMatch pattern (f.drop (base.length + 1)))

/-- `_validate_required_files`: `source.toml` and `categories.toml` must
exist, the `apis/` directory must exist, and it must directly contain at
least one `*.toml` file.  (An existing-but-empty `apis/` directory is not
representable in the model; both failure shapes are an error here as in
the code.) -/
def validateRequiredFiles (fs : SrcFS) : Except String Unit :=
  if !fs.existsPath "source.toml" then
    .error "必需文件不存在: source.toml"
  else if !fs.existsPath "categories.toml" then
    .error "必需文件不存在: categories.toml"
  else if !fs.isDirPath "apis" then
    .error "缺少 apis 目录"
  else if (fs.glob "apis" "*.toml").isEmpty then
    .error "apis 目录中没有 .toml 文件"
  else .ok ()

/-- `_parse_toml_file` on a path known to the model (missing content is a
`ParseError`). -/
def parseTomlFile (fs : SrcFS) (p : String) : Except String Doc :=
  match fs.read p with
  | some d => .ok d
  | none => .error ("解析 TOML 文件失败 " ++ p)

/-- Extraction of one `Category` from a raw TOML table
(`Category(**cat_data)` with pydantic type coercion). -/
def categoryOfDoc (d : Doc) : Except String Category :=
  match lookupDoc d "id", lookupDoc d "name", lookupDoc d "category" with
  | some (.str id), some (.str name), some (.str category) =>
      mkCategory id name category
        (match lookupDoc d "subcategory" with | some (.str s) => some s | _ => none)
        (match lookupDoc d "subsubcategory" with | some (.str s) => some s | _ => none)
        (match lookupDoc d "icon" with | some (.str s) => some s | _ => none)
        (match lookupDoc d "description" with | some (.str s) => some s | _ => none)
  | _, _, _ => .error "分类字段缺失或类型错误"

/-- `_parse_categories` in strict mode: the first failing entry aborts. -/
def parseCategories (categories_data : Doc) : Except String (List Category) :=
  match lookupDoc categories_data "categories" with
  | some (.arr entries) =>
      entries.foldl (fun acc e =>
        acc >>= fun cs =>
          match e with
          | .table d => (categoryOfDoc d).map (fun c => cs ++ [c])
          | _ => .error "分类解析失败: 非表项")
        (.ok [])
  | _ => .ok []

/-- Optional-string field extraction from a raw table.  A wrongly-typed
value for an optional field is treated as absent here; pydantic would
reject the whole record, a corner no claim exercises. -/
def docOptStr (d : Doc) (k : String) : Option String :=
  match lookupDoc d k with
  | some (.str s) => some s
  | _ => none

/-- `Parameter(**data)` from a raw table. -/
def parameterOfDoc (d : Doc) : Except String Parameter :=
  match lookupDoc d "key", lookupDoc d "label" with
  | some (.str key), some (.str label) =>
      (match lookupDoc d "type" with
       | some (.str "choice") => .ok ParameterType.choice
       | some (.str "text") => .ok ParameterType.text
       | some (.str "boolean") => .ok ParameterType.boolean
       | _ => .error "参数type无效") >>= fun ty =>
      let choices := match lookupDoc d "choices" with
        | some (.arr xs) =>
            some (xs.filterMap (fun v => match v with
              | .str s => some s
              | _ => none))
        | _ => none
      mkParameter key ty label
        ((docOptStr d "default").getD "")
        choices (docOptStr d "placeholder")
        (match lookupDoc d "hidden" with | some (.boolean b) => b | _ => false)
        (match lookupDoc d "min_length" with | some (.num n) => some n | _ => none)
        (match lookupDoc d "max_length" with | some (.num n) => some n | _ => none)
        (docOptStr d "pattern") (docOptStr d "description")
  | _, _ => .error "参数字段缺失或类型错误"

/-- `RequestConfig(**data)` from a raw table. -/
def requestConfigOfDoc (d : Doc) : Except String RequestConfig :=
  mkRequestConfig (docOptStr d "url")
    ((docOptStr d "method").getD "GET")
    (match lookupDoc d "timeout_seconds" with | some (.num n) => some n | _ => none)
    (match lookupDoc d "interval_seconds" with | some (.num n) => some n | _ => none)
    (match lookupDoc d "max_concurrent" with | some (.num n) => some n | _ => none)
    (match lookupDoc d "skip_ssl_verify" with | some (.boolean b) => some b | _ => none)
    (docOptStr d "user_agent")
    (match lookupDoc d "headers" with
     | some (.table kvs) =>
         some (kvs.filterMap (fun p => match p.2 with
           | .str s => some (p.1, s)
           | _ => none))
     | _ => none)
    (lookupDoc d "body")

/-- A string-to-string sub-table. -/
def docStrTable (d : Doc) (k : String) : Option (List (String × String)) :=
  match lookupDoc d k with
  | some (.table kvs) =>
      some (kvs.filterMap (fun p => match p.2 with
        | .str s => some (p.1, s)
        | _ => none))
  | _ => none

/-- `FieldMapping(**data)` from a raw table. -/
def fieldMappingOfDoc (d : Doc) : Except String FieldMapping :=
  mkFieldMapping (docOptStr d "image") (docOptStr d "title")
    (docOptStr d "description") (docOptStr d "thumbnail")
    (docOptStr d "width") (docOptStr d "height") (docOptStr d "author")
    (docOptStr d "source") (docOptStr d "tags") (docOptStr d "date")
    (docOptStr d "items") (docStrTable d "item_mapping")

/-- `CacheConfig(**data)` from a raw table. -/
def cacheConfigOfDoc (d : Doc) : Except String CacheConfig :=
  mkCacheConfig
    (match lookupDoc d "enabled" with | some (.boolean b) => b | _ => true)
    (match lookupDoc d "ttl_seconds" with | some (.num n) => n | _ => 300)
    (docOptStr d "key_template")
    (match lookupDoc d "exclude_params" with
     | some (.arr xs) =>
         some (xs.filterMap (fun v => match v with
           | .str s => some s
           | _ => none))
     | _ => none)

/-- The recognized `WallpaperAPI` field names; everything else lands in the
tolerated `extra` bag. -/
def apiKnownKeys : List String :=
  ["name", "description", "logo", "categories", "category_icons",
   "parameters", "request", "response", "mapping", "validation",
   "error_handling", "cache", "inherit"]

/-- `WallpaperAPI(**api_data)` from a raw table: field extraction with
type coercion followed by the model validators. -/
def wallpaperAPIofDoc (d : Doc) : Except String WallpaperAPI :=
  match lookupDoc d "name" with
  | some (.str name) =>
    (match lookupDoc d "categories" with
     | some (.arr xs) =>
         xs.foldl (fun acc v => acc >>= fun cs =>
           match v with
           | .str s => .ok (cs ++ [s])
           | _ => .error "categories 元素必须是字符串") (.ok [])
     | _ => .error "categories 字段缺失或类型错误") >>= fun categories =>
    (match lookupDoc d "parameters" with
     | some (.arr xs) =>
         xs.foldl (fun acc v => acc >>= fun ps =>
           match v with
           | .table t => (parameterOfDoc t).map (fun p => ps ++ [p])
           | _ => .error "参数必须是表") (.ok [])
     | _ => .ok []) >>= fun parameters =>
    (match lookupDoc d "request" with
     | some (.table t) => (requestConfigOfDoc t).map some
     | _ => .ok none) >>= fun request =>
    (match lookupDoc d "mapping" with
     | some (.table t) => (fieldMappingOfDoc t).map some
     | _ => .ok none) >>= fun mapping =>
    (match lookupDoc d "cache" with
     | some (.table t) => (cacheConfigOfDoc t).map some
     | _ => .ok none) >>= fun cache =>
    let response := match lookupDoc d "response" with
      | some (.table t) => t
      | _ => []
    let validation := match lookupDoc d "validation" with
      | some (.table t) => some t
      | _ => none
    let error_handling := match lookupDoc d "error_handling" with
      | some (.table t) => some t
      | _ => none
    mkWallpaperAPI name (docOptStr d "description") (docOptStr d "logo")
      categories (docStrTable d "category_icons") parameters request response
      mapping validation error_handling cache (docOptStr d "inherit")
      (d.filter (fun p => !apiKnownKeys.contains p.1))
  | _ => .error "name 字段缺失或类型错误"

/-- `_load_inherited_api`: look the parent file up next to the child; a
missing parent or an unreadable path is downgraded to a warning. -/
def loadInheritedApi (fs : SrcFS) (inherit_path current_file : String) :
    Option Doc × List String :=
  let inherit_file := joinPath (dirname current_file) inherit_path
  if fs.isFilePath inherit_file then
    match fs.read inherit_file with
    | some d => (some d, [])
    | none => (none, ["加载继承文件失败 " ++ inherit_path])
  else if fs.isDirPath inherit_file then
    -- opening a directory raises inside the try, caught as a load failure
    (none, ["加载继承文件失败 " ++ inherit_path])
  else
    (none, ["继承文件不存在: " ++ inherit_path])

/-- The `AttributeError` raised by `merged_data = {**inherited_api.dict(),
**api_data}`: `_load_inherited_api` returns the plain `dict` produced by
`rtoml.load`, and plain dicts have no `.dict` attribute. -/
def pyDictAttrErrMsg : String :=
  "AttributeError: 'dict' object has no attribute 'dict'"

/-- `WallpaperAPI(**api_data)` wrapped in `_parse_api`'s try/except. -/
def constructApi (api_data : Doc) : Except String WallpaperAPI :=
  match wallpaperAPIofDoc api_data with
  | .ok a => .ok a
  | .error e => .error ("API 数据验证失败: " ++ e)

/-- `_parse_api`: resolve the optional `inherit` link, then construct.
When the parent file exists, the code calls `.dict()` on the plain dict
returned by `_load_inherited_api` and dies with an `AttributeError` before
any merging happens. -/
def parseApi (fs : SrcFS) (file_path : String) (api_data : Doc) :
    Except String WallpaperAPI × List String :=
  match lookupDoc api_data "inherit" with
  | some (.str p) =>
      match loadInheritedApi fs p file_path with
      | (some _, ws) => (.error pyDictAttrErrMsg, ws)
      | (none, ws) => (constructApi api_data, ws)
  | some v =>
      -- a non-string inherit raises inside `_load_inherited_api`'s try
      -- (caught as a load-failure warning), after which construction
      -- rejects the non-string `inherit` field
      (.error "API 数据验证失败: inherit 必须是字符串",
       ["加载继承文件失败 " ++ pyStrOf v])
  | none => (constructApi api_data, [])

/-- The iteration `for pattern in metadata.get("apis", [])`: a list yields
its string entries, while a single string is iterated character by
character (each character becomes a "pattern"). -/
def apisPatterns (metadata : Doc) : List String :=
  match lookupDoc metadata "apis" with
  | some (.arr xs) => xs.filterMap (fun v => match v with
      | .str s => some s
      | _ => none)
  | some (.str s) => s.data.map (fun c => String.mk [c])
  | _ => []

/-- The explicit-pattern phase of `_parse_apis`: a pattern that exists as a
file is taken literally; one that exists as a directory is globbed as a
literal name (which cannot denote a regular file); anything else — in
particular a glob pattern, which never exists as a path — contributes
nothing. -/
def explicitApiFiles (fs : SrcFS) : List String → List String
  | [] => []
  | p :: ps =>
      (if fs.isFilePath p then [p]
       else if fs.isDirPath p then
         (fs.glob "" p).filter fs.isFilePath
       else []) ++ explicitApiFiles fs ps

/-- The API file set of `_parse_apis`: explicit patterns first, falling
back to every `*.toml` directly inside `apis/` when they produce nothing. -/
def apiFileSet (fs : SrcFS) (metadata : Doc) : List String :=
  let api_files := explicitApiFiles fs (apisPatterns metadata)
  if api_files.isEmpty then fs.glob "apis" "*.toml" else api_files

/-- `_parse_apis` in strict mode: parse every discovered file, aborting on
the first failure, and collect inheritance warnings. -/
def parseApis (fs : SrcFS) (metadata : Doc) :
    Except String (List WallpaperAPI) × List String :=
  (apiFileSet fs metadata).foldl (fun acc api_file =>
    match acc with
    | (.error e, ws) => (.error e, ws)
    | (.ok apis, ws) =>
        match parseTomlFile fs api_file with
        | .error e => (.error ("解析 API 文件失败 " ++ api_file ++ ": " ++ e), ws)
        | .ok api_data =>
            match parseApi fs api_file api_data with
            | (.ok api, ws') => (.ok (apis ++ [api]), ws ++ ws')
            | (.error e, ws') =>
                (.error ("解析 API 文件失败 " ++ api_file ++ ": " ++ e), ws ++ ws'))
    (.ok [], [])

/-- `_parse_directory` in strict mode. -/
def parseDirectory (fs : SrcFS) (dir_path : String) :
    Except String WallpaperSource × List String :=
  match validateRequiredFiles fs with
  | .error e => (.error e, [])
  | .ok _ =>
    match parseTomlFile fs "source.toml" with
    | .error e => (.error e, [])
    | .ok source_metadata =>
      if !(match lookupDoc source_metadata "scheme" with
           | some (.str s) => s == "littletree_wallpaper_source_v3"
           | _ => false) then
        (.error "不支持的协议版本", [])
      else
        let config := if fs.existsPath "config.toml" then
          (fs.read "config.toml").getD [] else []
        match parseTomlFile fs "categories.toml" with
        | .error e => (.error e, [])
        | .ok categories_data =>
          match parseCategories categories_data with
          | .error e => (.error e, [])
          | .ok categories =>
            match parseApis fs source_metadata with
            | (.error e, ws) => (.error e, ws)
            | (.ok apis, ws) =>
              let category_errors := categoryRefErrors apis categories
              if !category_errors.isEmpty then
                (.error ("分类引用错误: " ++
                  String.intercalate ", " category_errors), ws)
              else
                (.ok ⟨source_metadata, config, categories, none, none, none,
                      apis, some dir_path⟩, ws)

/-! ## Archive format check (`LTWSParser._validate_ltws_format`) -/

/-- What `tarfile.open` sees: either not a readable tar archive (this
includes the empty file) or a member-name list. -/
inductive TarContent where
  | notTar
  | tar (members : List String)

/-- `Path(p).suffix` (CPython: the name's last dot, excluding a leading or
trailing dot). -/
def pathSuffix (p : String) : String :=
  let name := (splitOnChar '/' p).getLastD ""
  let cs := name.data
  let i := cs.length - 1 - (cs.reverse.takeWhile (fun c => c != '.')).length
  if (cs.contains '.') && 0 < i && i < cs.length - 1 then
    String.mk (cs.drop i)
  else ""

/-- `_validate_ltws_format`: extension must be `.ltws`, the file must open
as tar, `source.toml` and `categories.toml` must be top-level members, and
some member path must begin with `apis/` (no constraint on its name). -/
def validateLtwsFormat (p : String) (content : TarContent) : Bool :=
  if pathSuffix p != ".ltws" then false
  else match content with
    | .notTar => false
    | .tar members =>
        members.contains "source.toml" &&
        members.contains "categories.toml" &&
        members.any (fun m => strPref "apis/" m)

/-- Modelled from the spec (for comparison with `apiFileSet`): "each
pattern is resolved relative to the source root, both as a literal existing
file and as a glob; the union of matches across all patterns becomes the
API file set. If the field is absent or yields no matches, fall back to
every `*.toml` file directly inside `apis/`." -/
def specApiFileSet (fs : SrcFS) (patterns : List String) : List String :=
  let explicit := (patterns.foldl (fun acc p =>
    acc ++ (if fs.isFilePath p then [p] else []) ++ fs.glob "" p) [])
    |> dedupFirstAux []
  if explicit.isEmpty then fs.glob "apis" "*.toml" else explicit

/-! ## Variable engine (`ltws/variables.py`)

`VariableEngine.replace` applies `re.sub(r"\{\{(\w+)(?::([^}]+))?\}\}", …)`
to the template.  The wall clock and the random source are external
collaborators, abstracted into an `EngineEnv`; context/registered variables
are modelled as the merged string-valued dict the code builds
(`{**self._variables, **context}`; callable values are not modelled).
A `TypeError` raised by calling a builtin with the wrong number of
arguments propagates out of `re.sub`, hence the `Except`. -/

/-- The ambient clock, random source and UUID source at call time. -/
structure EngineEnv where
  yearN : Nat
  monthN : Nat
  dayN : Nat
  hourN : Nat
  minuteN : Nat
  secondN : Nat
  timestampMs : Int
  timestampS : Int
  dateIso : String
  dateCn : String
  randString : Int → String
  randIntF : Int → Int → Int
  randHex : Int → String
  uuidStr : String

/-- The names registered by `_register_builtin_functions`. -/
def functionNames : List String :=
  ["timestamp_ms", "timestamp_s", "date_iso", "date_cn", "year", "month",
   "day", "hour", "minute", "second", "random_string", "random_int",
   "random_hex", "url_encode", "uuid"]

/-- A byte that `urllib.parse.quote` leaves unescaped with the default
`safe='/'`: ASCII letters, digits, `_.-~` and `/`. -/
def quoteSafeByte (b : Nat) : Bool :=
  (65 ≤ b && b ≤ 90) || (97 ≤ b && b ≤ 122) || (48 ≤ b && b ≤ 57) ||
  b == 95 || b == 46 || b == 45 || b == 126 || b == 47

/-- Upper-case hex digit. -/
def hexDigitU (n : Nat) : Char :=
  if n < 10 then Char.ofNat (48 + n) else Char.ofNat (55 + n)

/-- UTF-8 encoding of one code point. -/
def utf8BytesOfChar (n : Nat) : List Nat :=
  if n < 128 then [n]
  else if n < 2048 then [192 + n / 64, 128 + n % 64]
  else if n < 65536 then
    [224 + n / 4096, 128 + (n / 64) % 64, 128 + n % 64]
  else
    [240 + n / 262144, 128 + (n / 4096) % 64, 128 + (n / 64) % 64,
     128 + n % 64]

/-- `urllib.parse.quote(s)`: percent-encode the UTF-8 bytes outside the
safe set. -/
def pyQuote (s : String) : String :=
  String.mk ((s.data.foldr (fun c acc => utf8BytesOfChar c.toNat ++ acc)
      []).foldr (fun b acc =>
    if quoteSafeByte b then Char.ofNat b :: acc
    else '%' :: hexDigitU (b / 16) :: hexDigitU (b % 16) :: acc) [])

/-- `random.randint` wrapped in the helpers' try/except: an inverted range
raises and falls back to `randint(1, 100)`. -/
def pyRandIntClamped (env : EngineEnv) (lo hi : Int) : Int :=
  if lo ≤ hi then env.randIntF lo hi else env.randIntF 1 100

/-- Apply one registered builtin to its parsed arguments
(`str(func(*args))`); a wrong argument count is a `TypeError`, malformed
numeric arguments silently fall back to the documented defaults. -/
def callBuiltin (env : EngineEnv) (name : String) (args : Option (List String)) :
    Except String String :=
  match name with
  | "timestamp_ms" => match args with
      | none => .ok (toString env.timestampMs) | some _ => .error "TypeError"
  | "timestamp_s" => match args with
      | none => .ok (toString env.timestampS) | some _ => .error "TypeError"
  | "date_iso" => match args with
      | none => .ok env.dateIso | some _ => .error "TypeError"
  | "date_cn" => match args with
      | none => .ok env.dateCn | some _ => .error "TypeError"
  | "year" => match args with
      | none => .ok (toString env.yearN) | some _ => .error "TypeError"
  | "month" => match args with
      | none => .ok (toString env.monthN) | some _ => .error "TypeError"
  | "day" => match args with
      | none => .ok (toString env.dayN) | some _ => .error "TypeError"
  | "hour" => match args with
      | none => .ok (toString env.hourN) | some _ => .error "TypeError"
  | "minute" => match args with
      | none => .ok (toString env.minuteN) | some _ => .error "TypeError"
  | "second" => match args with
      | none => .ok (toString env.secondN) | some _ => .error "TypeError"
  | "random_string" => match args with
      | none => .ok (env.randString 8)
      | some [a] => .ok (match pyToInt a with
          | some n => env.randString n
          | none => env.randString 8)
      | some _ => .error "TypeError"
  | "random_int" => match args with
      | none => .ok (toString (pyRandIntClamped env 1 100))
      | some [a] => .ok (match pyToInt a with
          | some lo => toString (pyRandIntClamped env lo 100)
          | none => toString (env.randIntF 1 100))
      | some [a, b] => .ok (match pyToInt a, pyToInt b with
          | some lo, some hi => toString (pyRandIntClamped env lo hi)
          | _, _ => toString (env.randIntF 1 100))
      | some _ => .error "TypeError"
  | "random_hex" => match args with
      | none => .ok (env.randHex 6)
      | some [a] => .ok (match pyToInt a with
          | some n => env.randHex n
          | none => env.randHex 6)
      | some _ => .error "TypeError"
  | "url_encode" => match args with
      | some [a] => .ok (if a.isEmpty then "" else pyQuote a)
      | _ => .error "TypeError"
  | "uuid" => match args with
      | none => .ok env.uuidStr | some _ => .error "TypeError"
  | _ => .error "KeyError"

/-- `\w` (modelled as its ASCII subset). -/
def isWordChar (c : Char) : Bool := c.isAlphanum || c == '_'

/-- Attempt to match `(\w+)(?::([^}]+))?\}\}` at the head of `cs`,
returning the name, the optional parameter text and the rest of the
input.  Greedy matching is the only possible match here because `\w`
excludes both `:` and `}`. -/
def parseToken (cs : List Char) :
    Option (List Char × Option (List Char) × List Char) :=
  let name := cs.takeWhile isWordChar
  if name.isEmpty then none
  else
    match cs.dropWhile isWordChar with
    | '}' :: '}' :: rest => some (name, none, rest)
    | ':' :: rest2 =>
        let ps := rest2.takeWhile (fun c => c != '}')
        if ps.isEmpty then none
        else match rest2.dropWhile (fun c => c != '}') with
          | '}' :: '}' :: rest3 => some (name, some ps, rest3)
          | _ => none
    | _ => none

/-- `_parse_function_params`: split on commas and strip each piece. -/
def parseFunctionParams (params : String) : List String :=
  (splitOnChar ',' params).map trimStr

/-- `_replace_variable`: builtin functions first, then the merged variable
dict, otherwise the whole match (`group(0)`) verbatim. -/
def replaceVar (env : EngineEnv) (vars : List (String × String))
    (name : String) (params : Option String) : Except String String :=
  if functionNames.contains name then
    callBuiltin env name (params.map parseFunctionParams)
  else
    match (vars.find? (fun p => p.1 == name)).map (fun p => p.2) with
    | some v => .ok v
    | none =>
        .ok ("\x7b\x7b" ++ name ++
          (match params with | none => "" | some p => ":" ++ p) ++ "\x7d\x7d")

/-- The left-to-right, non-overlapping scan of `re.sub`: try to match the
token pattern at every position, emit the replacement and continue after
the match, or shift one character.  The fuel always suffices when it is at
least the input length, since every step consumes at least one character. -/
def pySub (env : EngineEnv) (vars : List (String × String)) :
    Nat → List Char → Except String (List Char)
  | _, [] => .ok []
  | 0, cs => .ok cs
  | fuel + 1, '{' :: '{' :: rest =>
      match parseToken rest with
      | some (name, ps, rest') =>
          (replaceVar env vars (String.mk name) (ps.map String.mk)) >>=
            fun r => (pySub env vars fuel rest').map (fun t => r.data ++ t)
      | none => (pySub env vars fuel ('{' :: rest)).map (fun t => '{' :: t)
  | fuel + 1, c :: rest => (pySub env vars fuel rest).map (fun t => c :: t)

/-- `VariableEngine.replace` with the merged variable dict `vars`. -/
def engineReplace (env : EngineEnv) (vars : List (String × String))
    (template : String) : Except String String :=
  (pySub env vars template.data.length template.data).map String.mk

/-! ## Fixtures for the claim theorems -/

/-- `Except.isOk` as a structurally evaluating helper. -/
def isOkE {ε α : Type} : Except ε α → Bool
  | .ok _ => true
  | .error _ => false

/-- `suf` is a suffix of `s` (`str.endswith`). -/
def strSuff (suf s : String) : Bool :=
  suf.data.reverse.isPrefixOf s.data.reverse

/-- The spec's inheritance-merge example parent:
`{name:"A", request:{url:"http://x"}, mapping:{image:"p"}}`. -/
def parentDocC1 : Doc :=
  [("name", .str "A"),
   ("request", .table [("url", .str "http://x")]),
   ("mapping", .table [("image", .str "p")])]

/-- The spec's inheritance-merge example child:
`{inherit:"parent.toml", mapping:{image:"c"}}`. -/
def childDocC1 : Doc :=
  [("inherit", .str "parent.toml"),
   ("mapping", .table [("image", .str "c")])]

/-- A source directory holding the child and its existing parent. -/
def fsC1 : SrcFS :=
  ⟨[("source.toml", [("scheme", .str "littletree_wallpaper_source_v3")]),
    ("categories.toml", [("categories", .arr [])]),
    ("apis/child.toml", childDocC1),
    ("apis/parent.toml", parentDocC1)]⟩

/-- Metadata whose `apis` field is the explicit glob pattern
`extra/*.toml`. -/
def mdC3 : Doc :=
  [("scheme", .str "littletree_wallpaper_source_v3"),
   ("apis", .arr [.str "extra/*.toml"])]

/-- Metadata whose `apis` field is the explicit literal path
`extra/b.toml`. -/
def mdC3lit : Doc :=
  [("scheme", .str "littletree_wallpaper_source_v3"),
   ("apis", .arr [.str "extra/b.toml"])]

/-- A directory where the glob pattern would match `extra/b.toml` while
the fallback directory holds `apis/a.toml`. -/
def fsC3 : SrcFS :=
  ⟨[("source.toml", mdC3),
    ("categories.toml", [("categories", .arr [])]),
    ("apis/a.toml", [("name", .str "a")]),
    ("extra/b.toml", [("name", .str "b")])]⟩

/-- Metadata whose `apis` entry resolves to the literal file
`extra/a.toml`. -/
def mdC4 : Doc :=
  [("scheme", .str "littletree_wallpaper_source_v3"),
   ("apis", .arr [.str "extra/a.toml"])]

/-- A directory with no `apis/` directory at all, but whose explicit
`apis` entry resolves to an existing descriptor file. -/
def fsC4 : SrcFS :=
  ⟨[("source.toml", mdC4),
    ("categories.toml", [("categories", .arr [])]),
    ("extra/a.toml",
      [("name", .str "a"), ("categories", .arr [.str "c1"]),
       ("response", .table [("format", .str "static_list")])])]⟩

/-- Tar members with the two required top-level files and an `apis/`
member that does not look like a descriptor. -/
def membersC5 : List String :=
  ["source.toml", "categories.toml", "apis/readme.txt"]

/-- A child descriptor whose `inherit` names a missing parent, and which
is valid on its own (static response). -/
def docC7 : Doc :=
  [("name", .str "B"),
   ("inherit", .str "nope.toml"),
   ("categories", .arr [.str "c1"]),
   ("response", .table [("format", .str "static_list")])]

/-- A source directory without the named parent file. -/
def fsC7 : SrcFS :=
  ⟨[("source.toml", [("scheme", .str "littletree_wallpaper_source_v3")]),
    ("categories.toml", [("categories", .arr [])]),
    ("apis/child.toml", docC7)]⟩

/-- A concrete environment for evaluating the variable engine. -/
def envC8 : EngineEnv :=
  ⟨2025, 7, 4, 1, 2, 3, 1720000000000, 1720000000, "2025-07-04",
   "2025年07月04日", fun _ => "rnd", fun lo _ => lo, fun _ => "abcdef",
   "00000000-0000-4000-8000-000000000000"⟩

/-! ## Claim theorems -/

/-- C1: the claim says that an API descriptor whose `inherit` names an
existing parent is resolved by overlaying the child's fields on the
parent's raw fields.  The code instead dies before any merge: on the
spec's own parent/child example, `_parse_api` calls `.dict()` on the plain
dict returned by `_load_inherited_api` and raises `AttributeError`, so the
API fails to parse whenever the parent file exists. -/
theorem C1_inherit_merge_crashes_on_existing_parent :
    parseApi fsC1 "apis/child.toml" childDocC1 =
      (.error pyDictAttrErrMsg, []) := rfl

/-- C5 counterexample: the parser's well-formedness check accepts a
`.ltws` tar containing `source.toml`, `categories.toml` and an `apis/`
member that does not match the descriptor name pattern (`*.toml`), so the
claimed "descriptor name pattern" requirement does not hold. -/
theorem C5_accepts_archive_without_descriptor_pattern :
    validateLtwsFormat "pack.ltws" (.tar membersC5) = true ∧
    membersC5.any (fun m => strPref "apis/" m && strSuff ".toml" m) = false :=
  ⟨rfl, rfl⟩

/-- C5 (amended): the parser's archive well-formedness check accepts a
file iff its `Path.suffix` is `.ltws`, it opens as a tar archive, both
`source.toml` and `categories.toml` are members, and at least one member
path begins with `apis/` — with no constraint on that member's name (the
`*.toml` name constraint exists only in the packager's post-archive
check); non-tar content (including the empty file) is always rejected. -/
theorem C5_ltws_format_characterization :
    (∀ (p : String) (ms : List String),
      validateLtwsFormat p (.tar ms) = true ↔
        (pathSuffix p = ".ltws" ∧ ms.contains "source.toml" = true ∧
         ms.contains "categories.toml" = true ∧
         ms.any (fun m => strPref "apis/" m) = true)) ∧
    (∀ p : String, validateLtwsFormat p .notTar = false) := by
  constructor
  · intro p ms
    unfold validateLtwsFormat
    by_cases hs : pathSuffix p = ".ltws"
    · simp [hs, Bool.and_eq_true, and_assoc]
    · simp [bne_iff_ne, hs]
  · intro p
    unfold validateLtwsFormat
    split <;> rfl

/-- Patterns that exist neither as files nor as directories contribute no
explicit API files. -/
theorem explicitApiFiles_nil_of_not_exists (fs : SrcFS) :
    ∀ pats, (∀ p ∈ pats, fs.existsPath p = false) →
    explicitApiFiles fs pats = [] := by
  intro pats
  induction pats with
  | nil => intro _; rfl
  | cons q qs ih =>
    intro h
    have hq := h q (List.mem_cons_self q qs)
    unfold SrcFS.existsPath at hq
    rw [Bool.or_eq_false_iff] at hq
    unfold explicitApiFiles
    rw [hq.1, hq.2]
    simpa using ih (fun p hp => h p (List.mem_cons_of_mem q hp))

/-- Patterns that are all literal existing files are taken verbatim. -/
theorem explicitApiFiles_of_all_files (fs : SrcFS) :
    ∀ pats, (∀ p ∈ pats, fs.isFilePath p = true) →
    explicitApiFiles fs pats = pats := by
  intro pats
  induction pats with
  | nil => intro _; rfl
  | cons q qs ih =>
    intro h
    unfold explicitApiFiles
    rw [h q (List.mem_cons_self q qs)]
    simpa using ih (fun p hp => h p (List.mem_cons_of_mem q hp))

/-- C3 counterexample: with the explicit pattern `extra/*.toml` (which
matches `extra/b.toml` as a glob), the parser produces the fallback set
`["apis/a.toml"]` instead of the claimed union of glob matches
`["extra/b.toml"]` (the latter computed by the spec-modelled rule). -/
theorem C3_parser_does_not_expand_globs :
    apiFileSet fsC3 mdC3 = ["apis/a.toml"] ∧
    specApiFileSet fsC3 (apisPatterns mdC3) = ["extra/b.toml"] := ⟨rfl, rfl⟩

/-- C3 (amended): the parser resolves each explicit `apis` entry only as a
literal path — entries that exist as files are taken verbatim, and entries
that do not exist as paths at all (in particular glob patterns, which
never exist literally) contribute nothing, so when no entry exists as a
path the parser falls back to every `*.toml` directly inside `apis/`.
(Glob expansion of the patterns is performed by the packager, not the
parser; a single-string `apis` value is iterated character by character.) -/
theorem C3_api_discovery_amended :
    (∀ (fs : SrcFS) (m : Doc),
      (∀ p ∈ apisPatterns m, fs.existsPath p = false) →
      apiFileSet fs m = fs.glob "apis" "*.toml") ∧
    (∀ (fs : SrcFS) (m : Doc) (p : String) (ps : List String),
      apisPatterns m = p :: ps →
      (∀ q ∈ p :: ps, fs.isFilePath q = true) →
      apiFileSet fs m = p :: ps) := by
  constructor
  · intro fs m h
    unfold apiFileSet
    rw [explicitApiFiles_nil_of_not_exists fs _ h]
    rfl
  · intro fs m p ps hpat h
    unfold apiFileSet
    rw [hpat, explicitApiFiles_of_all_files fs _ h]
    rfl

/-- C3 witness: both parts of the amended discovery rule at concrete
inputs. -/
theorem C3_api_discovery_amended_witness :
    apiFileSet fsC3 mdC3 = fsC3.glob "apis" "*.toml" ∧
    apiFileSet fsC3 mdC3lit = ["extra/b.toml"] :=
  ⟨C3_api_discovery_amended.1 fsC3 mdC3 (by decide),
   C3_api_discovery_amended.2 fsC3 mdC3lit "extra/b.toml" [] rfl (by decide)⟩

/-- C4 counterexample: a directory whose explicit `apis` entry resolves to
the existing file `extra/a.toml` still fails to parse, because
`_validate_required_files` unconditionally demands an `apis/` directory
with a `.toml` file. -/
theorem C4_explicit_patterns_insufficient :
    parseDirectory fsC4 "/src" = (.error "缺少 apis 目录", []) ∧
    explicitApiFiles fsC4 (apisPatterns mdC4) = ["extra/a.toml"] := ⟨rfl, rfl⟩

/-- C4 (amended): parsing a source directory always fails when `apis/`
directly contains no `.toml` file — explicit `apis` entries in
`source.toml` never lift the requirement, even when they resolve to
existing descriptor files. -/
theorem C4_apis_directory_always_required :
    ∀ (fs : SrcFS) (dir_path : String),
      fs.glob "apis" "*.toml" = [] →
      isOkE (parseDirectory fs dir_path).1 = false := by
  intro fs dir_path h
  have hreq : ∀ u : Unit, validateRequiredFiles fs ≠ .ok u := by
    intro u hok
    unfold validateRequiredFiles at hok
    by_cases h0 : fs.existsPath "source.toml" = false <;>
      by_cases h1 : fs.existsPath "categories.toml" = false <;>
        by_cases h2 : fs.isDirPath "apis" = false <;>
          simp [h0, h1, h2, h] at hok
  cases hv : validateRequiredFiles fs with
  | error e =>
    unfold parseDirectory
    rw [hv]
    rfl
  | ok u => exact absurd hv (hreq u)

/-- C4 witness: the amended requirement applied to the counterexample
directory. -/
theorem C4_apis_directory_always_required_witness :
    fsC4.glob "apis" "*.toml" = [] ∧
    isOkE (parseDirectory fsC4 "/src").1 = false :=
  ⟨rfl, C4_apis_directory_always_required fsC4 "/src" rfl⟩

/-- A successfully constructed `FieldMapping` carries exactly the input
fields (the validator returns `self` unchanged). -/
theorem mkFieldMapping_ok_fields (image title description thumbnail width
    height author source tags date items : Option String)
    (item_mapping : Option (List (String × String))) (m : FieldMapping)
    (hm : mkFieldMapping image title description thumbnail width height
      author source tags date items item_mapping = .ok m) :
    m = ⟨image, title, description, thumbnail, width, height, author,
         source, tags, date, items, item_mapping⟩ := by
  simp only [mkFieldMapping] at hm
  repeat' split at hm
  all_goals first
    | exact (Except.ok.inj hm).symm
    | cases hm

/-- C2 counterexample: a `FieldMapping` with the single-image field
`thumbnail` populated *and* `items` set (with a valid `item_mapping`)
constructs successfully, because the exclusivity check only inspects
`image`, `title` and `description`. -/
theorem C2_thumbnail_coexists_with_items :
    mkFieldMapping none none none (some "x") none none none none none none
      (some "y") (some [("image", "i")]) =
    .ok ⟨none, none, none, some "x", none, none, none, none, none, none,
         some "y", some [("image", "i")]⟩ := rfl

/-- C2 (amended): for every successfully constructed `FieldMapping`, none
of `image`, `title`, `description` is populated at the same time as
`items` being set (the other seven single-image fields may coexist with
`items`); construction fails whenever `items` carries a non-empty value
while `item_mapping` is absent or empty, and whenever `item_mapping` is
non-empty without an `"image"` key. -/
theorem C2_mapping_exclusivity_amended :
    (∀ (image title description thumbnail width height author source tags
        date items : Option String)
       (item_mapping : Option (List (String × String))) (m : FieldMapping),
      mkFieldMapping image title description thumbnail width height author
        source tags date items item_mapping = .ok m →
      ((strTruthy m.image || strTruthy m.title || strTruthy m.description) &&
        m.items.isSome) = false) ∧
    (∀ (image title description thumbnail width height author source tags
        date items : Option String)
       (item_mapping : Option (List (String × String))),
      strTruthy items = true → dictTruthy item_mapping = false →
      isOkE (mkFieldMapping image title description thumbnail width height
        author source tags date items item_mapping) = false) ∧
    (∀ (image title description thumbnail width height author source tags
        date items : Option String)
       (item_mapping : Option (List (String × String))),
      dictTruthy item_mapping = true →
      dictHasKey item_mapping "image" = false →
      isOkE (mkFieldMapping image title description thumbnail width height
        author source tags date items item_mapping) = false) := by
  refine ⟨?_, ?_, ?_⟩
  · intro image title description thumbnail width height author source tags
      date items item_mapping m hm
    obtain rfl := mkFieldMapping_ok_fields _ _ _ _ _ _ _ _ _ _ _ _ _ hm
    show ((strTruthy image || strTruthy title || strTruthy description) &&
      items.isSome) = false
    by_contra hcon
    rw [Bool.not_eq_false, Bool.and_eq_true] at hcon
    obtain ⟨hA, hB⟩ := hcon
    have hAny : (strTruthy image || strTruthy title || strTruthy description ||
        strTruthy thumbnail || strTruthy width || strTruthy height ||
        strTruthy author || strTruthy source || strTruthy tags ||
        strTruthy date || strTruthy items) = true := by
      simp only [Bool.or_eq_true] at hA ⊢
      tauto
    simp [mkFieldMapping, hAny, hA, hB] at hm
  · intro image title description thumbnail width height author source tags
      date items item_mapping hit him
    have hSome : items.isSome = true := by
      cases items <;> simp_all [strTruthy]
    have hAny : (strTruthy image || strTruthy title || strTruthy description ||
        strTruthy thumbnail || strTruthy width || strTruthy height ||
        strTruthy author || strTruthy source || strTruthy tags ||
        strTruthy date || strTruthy items) = true := by
      simp only [Bool.or_eq_true]
      tauto
    by_cases hs : (strTruthy image || strTruthy title ||
        strTruthy description) = true <;>
      simp [mkFieldMapping, hAny, him, hSome, hs, hit, isOkE]
  · intro image title description thumbnail width height author source tags
      date items item_mapping him hkey
    by_cases hs : (strTruthy image || strTruthy title ||
        strTruthy description) = true <;>
      by_cases hmu : items.isSome = true <;>
        simp [mkFieldMapping, him, hkey, hs, hmu, isOkE]

/-- C2 witness: the amended invariant applied at concrete inputs — an
all-empty mapping for the first part, `items` without `item_mapping` for
the second, a non-empty `item_mapping` lacking `"image"` for the third. -/
theorem C2_mapping_exclusivity_amended_witness :
    ((strTruthy (emptyFieldMapping.image) || strTruthy (emptyFieldMapping.title)
      || strTruthy (emptyFieldMapping.description)) &&
      (emptyFieldMapping.items).isSome) = false ∧
    isOkE (mkFieldMapping none none none none none none none none none none
      (some "y") none) = false ∧
    isOkE (mkFieldMapping none none none none none none none none none none
      none (some [("title", "t")])) = false :=
  ⟨C2_mapping_exclusivity_amended.1 none none none none none none none none
      none none none none emptyFieldMapping rfl,
   C2_mapping_exclusivity_amended.2.1 none none none none none none none none
      none none (some "y") none rfl rfl,
   C2_mapping_exclusivity_amended.2.2 none none none none none none none none
      none none none (some [("title", "t")]) rfl rfl⟩

/-- C6: `WallpaperAPI` construction treats the response as static iff the
resolved `format`/`type` value is (case-insensitively) `static_list` or
`static_dict`; non-static construction fails whenever `request` or
`mapping` is missing; static construction succeeds without either (given
otherwise valid fields), defaulting `mapping` to the all-empty
`FieldMapping`. -/
theorem C6_static_response_construction :
    (∀ (name : String) (description logo : Option String)
       (categories : List String)
       (category_icons : Option (List (String × String)))
       (parameters : List Parameter) (request : Option RequestConfig)
       (response : Doc) (mapping : Option FieldMapping)
       (validation error_handling : Option Doc) (cache : Option CacheConfig)
       (inherit : Option String) (extra : Doc),
      isStaticResponseFormat response = false →
      (request = none ∨ mapping = none) →
      isOkE (mkWallpaperAPI name description logo categories category_icons
        parameters request response mapping validation error_handling cache
        inherit extra) = false) ∧
    (∀ (name : String) (description logo : Option String)
       (categories : List String)
       (category_icons : Option (List (String × String)))
       (parameters : List Parameter) (response : Doc)
       (validation error_handling : Option Doc) (cache : Option CacheConfig)
       (inherit : Option String) (extra : Doc),
      isStaticResponseFormat response = true →
      1 ≤ name.length → name.length ≤ 100 →
      categories.isEmpty = false →
      mkWallpaperAPI name description logo categories category_icons
        parameters none response none validation error_handling cache
        inherit extra =
      .ok ⟨name, description, logo, categories, category_icons, parameters,
           none, response, some emptyFieldMapping, validation,
           error_handling, cache, inherit, extra⟩) ∧
    (∀ response : Doc,
      isStaticResponseFormat response = true ↔
      ∃ s, resolvedResponseFormat response = some (.str s) ∧
        (asciiLower s = "static_list" ∨ asciiLower s = "static_dict")) := by
  refine ⟨?_, ?_, ?_⟩
  · intro name description logo categories category_icons parameters request
      response mapping validation error_handling cache inherit extra hst hmiss
    rcases hmiss with hreq | hmap
    · subst hreq
      simp only [mkWallpaperAPI, hst]
      repeat' split
      all_goals simp_all [isOkE]
    · subst hmap
      simp only [mkWallpaperAPI, hst]
      repeat' split
      all_goals simp_all [isOkE]
  · intro name description logo categories category_icons parameters response
      validation error_handling cache inherit extra hst h1 h100 hcat
    simp [mkWallpaperAPI, hst, h1, h100, hcat, Nat.pos_iff_ne_zero.mp h1]
  · intro response
    unfold isStaticResponseFormat
    cases hr : resolvedResponseFormat response with
    | none => simp
    | some v =>
      cases v <;> simp_all

/-- C6 witness: a non-static API without a request fails; a static API
without request and mapping succeeds with the defaulted empty mapping; a
`static_list` format is recognized as static. -/
theorem C6_static_response_construction_witness :
    isOkE (mkWallpaperAPI "n" none none ["c1"] none [] none [] none none
      none none none []) = false ∧
    mkWallpaperAPI "n" none none ["c1"] none []
      none [("format", TomlVal.str "static_list")] none none none none
      none [] =
    .ok ⟨"n", none, none, ["c1"], none, [], none,
         [("format", TomlVal.str "static_list")], some emptyFieldMapping,
         none, none, none, none, []⟩ ∧
    isStaticResponseFormat [("format", TomlVal.str "static_list")] = true :=
  ⟨C6_static_response_construction.1 "n" none none ["c1"] none [] none []
      none none none none none [] rfl (Or.inl rfl),
   C6_static_response_construction.2.1 "n" none none ["c1"] none []
      [("format", TomlVal.str "static_list")] none none none none []
      rfl (by decide) (by decide) rfl,
   (C6_static_response_construction.2.2
      [("format", TomlVal.str "static_list")]).mpr
      ⟨"static_list", rfl, Or.inl rfl⟩⟩

/-- A successfully constructed `RequestConfig` carries exactly the input
fields. -/
theorem mkRequestConfig_ok_fields (url : Option String) (method : String)
    (timeout_seconds interval_seconds max_concurrent : Option Int)
    (skip_ssl_verify : Option Bool) (user_agent : Option String)
    (headers : Option (List (String × String))) (body : Option TomlVal)
    (rc : RequestConfig)
    (h : mkRequestConfig url method timeout_seconds interval_seconds
      max_concurrent skip_ssl_verify user_agent headers body = .ok rc) :
    rc = ⟨url, method, timeout_seconds, interval_seconds, max_concurrent,
          skip_ssl_verify, user_agent, headers, body⟩ := by
  simp only [mkRequestConfig] at h
  repeat' split at h
  all_goals first
    | exact (Except.ok.inj h).symm
    | cases h

/-- A present `timeout_seconds` that survives construction lies in the
pydantic bounds. -/
theorem mkRequestConfig_timeout_bounds (url : Option String) (method : String)
    (t : Int) (interval_seconds max_concurrent : Option Int)
    (skip_ssl_verify : Option Bool) (user_agent : Option String)
    (headers : Option (List (String × String))) (body : Option TomlVal)
    (rc : RequestConfig)
    (h : mkRequestConfig url method (some t) interval_seconds max_concurrent
      skip_ssl_verify user_agent headers body = .ok rc) :
    1 ≤ t ∧ t ≤ 300 := by
  simp only [mkRequestConfig] at h
  repeat' split at h
  all_goals simp_all

/-- C10: every successfully constructed `RequestConfig` has
`timeout_seconds` absent or within 1–300, and consequently the validator's
out-of-range-timeout warning branch in `_validate_request` never fires on
such a request. -/
theorem C10_request_timeout_invariant :
    ∀ (url : Option String) (method : String)
      (timeout_seconds interval_seconds max_concurrent : Option Int)
      (skip_ssl_verify : Option Bool) (user_agent : Option String)
      (headers : Option (List (String × String))) (body : Option TomlVal)
      (rc : RequestConfig),
      mkRequestConfig url method timeout_seconds interval_seconds
        max_concurrent skip_ssl_verify user_agent headers body = .ok rc →
      (∀ t, rc.timeout_seconds = some t → 1 ≤ t ∧ t ≤ 300) ∧
      (∀ api_name, (validateRequest rc api_name).2 = []) := by
  intro url method timeout_seconds interval_seconds max_concurrent
    skip_ssl_verify user_agent headers body rc h
  obtain rfl := mkRequestConfig_ok_fields url method timeout_seconds
    interval_seconds max_concurrent skip_ssl_verify user_agent headers body
    _ h
  have hbound : ∀ t, timeout_seconds = some t → 1 ≤ t ∧ t ≤ 300 := by
    intro t ht
    subst ht
    exact mkRequestConfig_timeout_bounds url method t interval_seconds
      max_concurrent skip_ssl_verify user_agent headers body _ h
  refine ⟨fun t ht => hbound t ht, ?_⟩
  intro api_name
  show (match timeout_seconds with
    | none => ([] : List String)
    | some t => if t != 0 && (t < 1 || t > 300) then
        ["API '" ++ api_name ++ "' 超时时间建议在1-300秒之间"] else []) = []
  cases timeout_seconds with
  | none => rfl
  | some t =>
    obtain ⟨hl, hr⟩ := hbound t rfl
    have hlt : ¬ (t < 1) := by omega
    have hgt : ¬ (t > 300) := by omega
    simp [hlt, hgt]

/-- C10 witness: a concretely constructed request config triggers no
timeout warning. -/
theorem C10_request_timeout_invariant_witness :
    (∀ t, (RequestConfig.mk (some "http://a") "GET" (some 30) none none none
      none none none).timeout_seconds = some t → 1 ≤ t ∧ t ≤ 300) ∧
    (validateRequest (RequestConfig.mk (some "http://a") "GET" (some 30)
      none none none none none none) "x").2 = [] :=
  ⟨(C10_request_timeout_invariant (some "http://a") "GET" (some 30) none
      none none none none none _ rfl).1,
   (C10_request_timeout_invariant (some "http://a") "GET" (some 30) none
      none none none none none _ rfl).2 "x"⟩

/-- C7: when an API descriptor's `inherit` names a parent path that does
not exist, the parser does not fail the API on that account: it records a
warning naming the inherit path and constructs the API from the child's
own un-merged fields as-is. -/
theorem C7_missing_parent_warning :
    ∀ (fs : SrcFS) (file_path : String) (api_data : Doc) (p : String),
      lookupDoc api_data "inherit" = some (.str p) →
      fs.existsPath (joinPath (dirname file_path) p) = false →
      parseApi fs file_path api_data =
        (constructApi api_data, ["继承文件不存在: " ++ p]) := by
  intro fs file_path api_data p hin hex
  have hload : loadInheritedApi fs p file_path =
      (none, ["继承文件不存在: " ++ p]) := by
    unfold loadInheritedApi
    unfold SrcFS.existsPath at hex
    rw [Bool.or_eq_false_iff] at hex
    simp [hex.1, hex.2]
  unfold parseApi
  rw [hin]
  show (match loadInheritedApi fs p file_path with
    | (some _, ws) => (Except.error pyDictAttrErrMsg, ws)
    | (none, ws) => (constructApi api_data, ws)) =
    (constructApi api_data, ["继承文件不存在: " ++ p])
  rw [hload]

/-- C7 witness: a child whose parent `nope.toml` is absent parses to its
own construction plus the warning, and that construction succeeds. -/
theorem C7_missing_parent_warning_witness :
    parseApi fsC7 "apis/child.toml" docC7 =
      (constructApi docC7, ["继承文件不存在: nope.toml"]) ∧
    isOkE (constructApi docC7) = true :=
  ⟨C7_missing_parent_warning fsC7 "apis/child.toml" docC7 "nope.toml" rfl rfl,
   rfl⟩

/-- C9: `validate_source` clears the per-instance error and warning lists
at the start of each call, so calling it twice on the same
`WallpaperSource` yields identical error and warning lists both times
(whatever state the validator started in), and each call passes exactly
when the accumulated error list is empty — warnings never affect the
verdict. -/
theorem C9_validate_source_idempotent :
    ∀ (v1 v2 : ValidatorState) (source : WallpaperSource),
      validateSourceRun v1 source = validateSourceRun v2 source ∧
      validateSourceRun (validateSourceRun v1 source).1 source =
        validateSourceRun v1 source ∧
      (validateSourceRun v1 source).2 =
        (validateSourceRun v1 source).1.errors.isEmpty :=
  fun _ _ _ => ⟨rfl, rfl, rfl⟩

/-- `takeWhile`/`dropWhile` on a word-character run followed by `'}'`. -/
theorem takeWhile_word_run (nm rs : List Char)
    (h : ∀ c ∈ nm, isWordChar c = true) :
    (nm ++ '}' :: rs).takeWhile isWordChar = nm ∧
    (nm ++ '}' :: rs).dropWhile isWordChar = '}' :: rs := by
  induction nm with
  | nil => exact ⟨rfl, rfl⟩
  | cons c cs ih =>
    have hc := h c (List.mem_cons_self c cs)
    have ih' := ih (fun x hx => h x (List.mem_cons_of_mem c hx))
    constructor
    · simp [List.takeWhile_cons, hc, ih'.1]
    · simp [List.dropWhile_cons, hc, ih'.2]

/-- The token regex matches a pure `\x7b\x7bname\x7d\x7d` input exactly. -/
theorem parseToken_whole (nm : List Char) (hne : nm ≠ [])
    (hw : ∀ c ∈ nm, isWordChar c = true) :
    parseToken (nm ++ ['}', '}']) = some (nm, none, []) := by
  have hemp : nm.isEmpty = false := by
    cases nm
    · exact absurd rfl hne
    · rfl
  unfold parseToken
  rw [(takeWhile_word_run nm ['}'] hw).1, (takeWhile_word_run nm ['}'] hw).2]
  simp [hemp]

/-- One whole-template scan step on an unknown `\x7b\x7bname\x7d\x7d`
token returns it verbatim. -/
theorem pySub_unknown_token (env : EngineEnv) (vars : List (String × String))
    (nm : List Char) (f : Nat) (hne : nm ≠ [])
    (hw : ∀ c ∈ nm, isWordChar c = true)
    (hfn : functionNames.contains (String.mk nm) = false)
    (hv : vars.find? (fun q => q.1 == String.mk nm) = none) :
    pySub env vars (f + 1) ('{' :: '{' :: (nm ++ ['}', '}'])) =
      .ok ('{' :: '{' :: (nm ++ ['}', '}'])) := by
  have hp := parseToken_whole nm hne hw
  have hfn2 : ¬ ((String.mk nm) ∈ functionNames) := by simpa using hfn
  simp only [pySub, hp]
  simp [replaceVar, hfn2, hv]
  show Except.ok (('{' :: '{' :: (nm ++ ['}', '}'])) ++ ([] : List Char)) =
    Except.ok ('{' :: '{' :: (nm ++ ['}', '}']))
  simp

/-- C8: tokens whose name is neither a registered builtin function nor a
known variable are left verbatim by the substitution (never an error), and
on the spec's example template the engine substitutes the current year and
leaves `\x7b\x7bmissing_var\x7d\x7d` untouched. -/
theorem C8_unknown_tokens_left_verbatim :
    (∀ (env : EngineEnv) (vars : List (String × String)) (nm : List Char),
      nm ≠ [] → (∀ c ∈ nm, isWordChar c = true) →
      functionNames.contains (String.mk nm) = false →
      vars.find? (fun q => q.1 == String.mk nm) = none →
      engineReplace env vars (String.mk ('{' :: '{' :: (nm ++ ['}', '}']))) =
        .ok (String.mk ('{' :: '{' :: (nm ++ ['}', '}'])))) ∧
    (∀ env : EngineEnv,
      engineReplace env []
        "https://x/\x7b\x7byear\x7d\x7d/\x7b\x7bmissing_var\x7d\x7d" =
        .ok ("https://x/" ++ toString env.yearN ++
             "/\x7b\x7bmissing_var\x7d\x7d")) := by
  constructor
  · intro env vars nm hne hw hfn hv
    show (pySub env vars (((nm ++ ['}', '}']).length + 1) + 1)
        ('{' :: '{' :: (nm ++ ['}', '}']))).map String.mk =
      .ok (String.mk ('{' :: '{' :: (nm ++ ['}', '}'])))
    rw [pySub_unknown_token env vars nm _ hne hw hfn hv]
    rfl
  · intro env
    rfl

/-- C8 witness: the unknown-token rule applied to the token
`\x7b\x7bmissing_var\x7d\x7d` under a concrete clock, and the example
template evaluated under that clock. -/
theorem C8_unknown_tokens_left_verbatim_witness :
    engineReplace envC8 [] "\x7b\x7bmissing_var\x7d\x7d" =
      .ok "\x7b\x7bmissing_var\x7d\x7d" ∧
    engineReplace envC8 []
      "https://x/\x7b\x7byear\x7d\x7d/\x7b\x7bmissing_var\x7d\x7d" =
      .ok "https://x/2025/\x7b\x7bmissing_var\x7d\x7d" :=
  ⟨C8_unknown_tokens_left_verbatim.1 envC8 []
      ['m', 'i', 's', 's', 'i', 'n', 'g', '_', 'v', 'a', 'r']
      (by decide) (by decide) (by decide) rfl,
   C8_unknown_tokens_left_verbatim.2 envC8⟩

end LTWS
